import Mathlib

/-!
Verification of the aftershock-monitor repository against its specification.

The repository's frontend (Next.js) is embedded directly from the source
files under `frontend/`.  The forecasting backend (model selection, Omori
integration, Gutenberg-Richter probabilities) is described by the spec but
its source is not part of the frontend tree, so those components are
modelled from the spec's formulas, as flagged on each definition.

Floating-point arithmetic in the source is modelled by exact arithmetic:
real numbers for the forecast formulas, rationals for the JSON payloads and
display formatting.  JavaScript strings are modelled by `String` (or by
`List Char` where character-level reasoning is needed).
-/

namespace Aftershock

/-! ## Forecast engine (modelled from the spec, §4.3)

The backend source is not in the frontend tree; the definitions below are
modelled from the spec's closed-form Omori integral and
Gutenberg-Richter exceedance formulas. -/

/-- Modelled from the spec: the Omori and Gutenberg-Richter parameters of a
selected model that the ForecastEngine consumes (`K`, `c`, `p`, `b`). -/
structure OmoriModel where
  K : ℝ
  c : ℝ
  p : ℝ
  b : ℝ

/-- Modelled from the spec: a loaded model is valid when `K>0`, `c≥0`,
`p>0`, `b>0` (load-time validation, §4.3 edge-case policy and §3). -/
def ValidModel (M : OmoriModel) : Prop :=
  0 < M.K ∧ 0 ≤ M.c ∧ 0 < M.p ∧ 0 < M.b

/-- Modelled from the spec: the "small positive epsilon" used to floor the
input before exponentiation so a `c = 0` singularity is avoided. -/
noncomputable def epsFloor : ℝ := 1 / 1000000000

/-- Modelled from the spec: the "small tolerance" within which `p ≈ 1`
selects the logarithmic branch of the closed-form integral. -/
noncomputable def pTol : ℝ := 1 / 1000000

/-- Modelled from the spec: the effective `c` after epsilon flooring. -/
noncomputable def cEff (M : OmoriModel) : ℝ := max M.c epsFloor

/-- Modelled from the spec: cumulative expected aftershock count from day 0
to horizon `D`, the closed-form Omori integral with a power branch for
`p ≠ 1` and a logarithmic branch for `p ≈ 1`. -/
noncomputable def cumulative (M : OmoriModel) (D : ℝ) : ℝ :=
  if |M.p - 1| ≤ pTol then
    M.K * Real.log ((D + cEff M) / cEff M)
  else
    M.K / (1 - M.p) * ((D + cEff M) ^ (1 - M.p) - cEff M ^ (1 - M.p))

/-- Modelled from the spec: the fixed forecast horizon set, in days. -/
def horizons : List ℝ := [1, 7, 30, 365]

/-- Modelled from the spec: the reference magnitude anchoring the
Gutenberg-Richter scaling (`m_ref = 2.5`). -/
noncomputable def mRef : ℝ := 5 / 2

/-- Modelled from the spec: expected count of aftershocks at or above
threshold `m` over the 365-day horizon,
`expectedCount(m) = cumulative(365) * 10^(−b·(m − m_ref))`. -/
noncomputable def expectedCount (M : OmoriModel) (m : ℝ) : ℝ :=
  cumulative M 365 * (10 : ℝ) ^ (-(M.b * (m - mRef)))

/-- Modelled from the spec: Poisson probability of at least one event at or
above `m`, `P(m) = 1 − exp(−expectedCount(m))`. -/
noncomputable def probabilityRaw (M : OmoriModel) (m : ℝ) : ℝ :=
  1 - Real.exp (-(expectedCount M m))

/-- Modelled from the spec: the emitted probability, clamped to `[0,1]`. -/
noncomputable def probability (M : OmoriModel) (m : ℝ) : ℝ :=
  min 1 (max 0 (probabilityRaw M m))

theorem cEff_pos (M : OmoriModel) : 0 < cEff M :=
  lt_max_iff.mpr (Or.inr (by norm_num [epsFloor]))

theorem cumulative_zero (M : OmoriModel) : cumulative M 0 = 0 := by
  have hc : cEff M ≠ 0 := (cEff_pos M).ne'
  unfold cumulative
  split
  · rw [zero_add, div_self hc, Real.log_one, mul_zero]
  · rw [zero_add, sub_self, mul_zero]

theorem cumulative_mono (M : OmoriModel) (hM : ValidModel M) {D₁ D₂ : ℝ}
    (h0 : 0 ≤ D₁) (h12 : D₁ ≤ D₂) : cumulative M D₁ ≤ cumulative M D₂ := by
  obtain ⟨hK, -, -, -⟩ := hM
  have hc : 0 < cEff M := cEff_pos M
  have h1 : 0 < D₁ + cEff M := by linarith
  have h2 : 0 < D₂ + cEff M := by linarith
  unfold cumulative
  split
  · refine mul_le_mul_of_nonneg_left ?_ hK.le
    rw [Real.log_le_log_iff (by positivity) (by positivity)]
    exact div_le_div_of_nonneg_right (by linarith) hc.le
  · rename_i hne
    rcases lt_trichotomy (1 - M.p) 0 with hneg | hzero | hpos
    · have hpow : (D₂ + cEff M) ^ (1 - M.p) ≤ (D₁ + cEff M) ^ (1 - M.p) :=
        Real.rpow_le_rpow_of_nonpos h1 (by linarith) hneg.le
      have hfac : M.K / (1 - M.p) ≤ 0 :=
        div_nonpos_iff.mpr (Or.inl ⟨hK.le, hneg.le⟩)
      exact mul_le_mul_of_nonpos_left (by linarith) hfac
    · exfalso
      apply hne
      have : M.p = 1 := by linarith
      rw [this]
      simp [pTol]
    · have hpow : (D₁ + cEff M) ^ (1 - M.p) ≤ (D₂ + cEff M) ^ (1 - M.p) :=
        Real.rpow_le_rpow h1.le (by linarith) hpos.le
      have hfac : 0 ≤ M.K / (1 - M.p) := div_nonneg hK.le hpos.le
      exact mul_le_mul_of_nonneg_left (by linarith) hfac

theorem cumulative_nonneg (M : OmoriModel) (hM : ValidModel M) {D : ℝ}
    (hD : 0 ≤ D) : 0 ≤ cumulative M D := by
  have h := cumulative_mono M hM (le_refl 0) hD
  rwa [cumulative_zero] at h

theorem expectedCount_nonneg (M : OmoriModel) (hM : ValidModel M) (m : ℝ) :
    0 ≤ expectedCount M m :=
  mul_nonneg (cumulative_nonneg M hM (by norm_num)) (Real.rpow_nonneg (by norm_num) _)

theorem expectedCount_antitone (M : OmoriModel) (hM : ValidModel M) {m₁ m₂ : ℝ}
    (h : m₁ ≤ m₂) : expectedCount M m₂ ≤ expectedCount M m₁ := by
  refine mul_le_mul_of_nonneg_left ?_ (cumulative_nonneg M hM (by norm_num))
  apply Real.rpow_le_rpow_of_exponent_le (by norm_num)
  have hb : 0 < M.b := hM.2.2.2
  nlinarith

/-- C3: for every valid model (K>0, p>0, c≥0), the cumulative expected
aftershock count computed by the closed-form Omori integral (power branch
for p ≠ 1, logarithmic branch for p ≈ 1 with epsilon flooring) is
non-decreasing as the horizon increases over the fixed set {1,7,30,365}. -/
theorem cumulative_nondecreasing_over_horizons (M : OmoriModel) (hM : ValidModel M) :
    List.Chain' (fun x y => x ≤ y) (horizons.map (cumulative M)) := by
  have h17 : cumulative M 1 ≤ cumulative M 7 :=
    cumulative_mono M hM (by norm_num) (by norm_num)
  have h730 : cumulative M 7 ≤ cumulative M 30 :=
    cumulative_mono M hM (by norm_num) (by norm_num)
  have h30365 : cumulative M 30 ≤ cumulative M 365 :=
    cumulative_mono M hM (by norm_num) (by norm_num)
  simp only [horizons, List.map_cons, List.map_nil, List.chain'_cons,
    List.chain'_singleton, and_true]
  exact ⟨h17, h730, h30365⟩

/-- Witness for C3 at the spec's concrete scenario model
K=30, c=1, p=1, b=1. -/
theorem cumulative_nondecreasing_over_horizons_witness :
    List.Chain' (fun x y => x ≤ y) (horizons.map (cumulative ⟨30, 1, 1, 1⟩)) :=
  cumulative_nondecreasing_over_horizons ⟨30, 1, 1, 1⟩ (by norm_num [ValidModel])

/-- C2: for every valid model and mainshock, the magnitude-exceedance
probability P(m) = 1 − exp(−expectedCount(m)) emitted by the engine is
non-increasing as the threshold m increases, lies in [0,1], and the
monotonicity clamp (take the min with the lower threshold's value) returns
the higher threshold's value unchanged rather than being skipped. -/
theorem probability_antitone_and_bounded (M : OmoriModel) (hM : ValidModel M)
    (m₁ m₂ : ℝ) (h12 : m₁ ≤ m₂) :
    probability M m₂ ≤ probability M m₁ ∧
      0 ≤ probability M m₂ ∧ probability M m₂ ≤ 1 ∧
      min (probability M m₂) (probability M m₁) = probability M m₂ := by
  have hE : expectedCount M m₂ ≤ expectedCount M m₁ := expectedCount_antitone M hM h12
  have hraw : probabilityRaw M m₂ ≤ probabilityRaw M m₁ := by
    unfold probabilityRaw
    have := Real.exp_le_exp.mpr (neg_le_neg hE)
    linarith
  have hmono : probability M m₂ ≤ probability M m₁ := by
    unfold probability
    exact min_le_min le_rfl (max_le_max le_rfl hraw)
  refine ⟨hmono, ?_, ?_, min_eq_left hmono⟩
  · unfold probability
    exact le_min zero_le_one (le_max_left 0 _)
  · unfold probability
    exact min_le_left _ _

/-- Witness for C2 at the concrete model K=30, c=1, p=1, b=1 with
thresholds m₁ = 3 and m₂ = 4. -/
theorem probability_antitone_and_bounded_witness :
    probability ⟨30, 1, 1, 1⟩ 4 ≤ probability ⟨30, 1, 1, 1⟩ 3 ∧
      0 ≤ probability ⟨30, 1, 1, 1⟩ 4 ∧ probability ⟨30, 1, 1, 1⟩ 4 ≤ 1 ∧
      min (probability ⟨30, 1, 1, 1⟩ 4) (probability ⟨30, 1, 1, 1⟩ 3) =
        probability ⟨30, 1, 1, 1⟩ 4 :=
  probability_antitone_and_bounded ⟨30, 1, 1, 1⟩ (by norm_num [ValidModel]) 3 4
    (by norm_num)

/-! ## Model registry and selector (modelled from the spec, §4.1–§4.2)

The backend source is not in the frontend tree; these definitions follow
the spec's data model (§3), registry operations (§4.1) and the selector's
three-step fallback chain (§4.2).  Persisted JSON numbers are modelled as
rationals. -/

/-- Modelled from the spec: one loaded regional parameter set (§3). -/
structure RegionalModel where
  regionId : String
  cellLat : ℤ
  cellLon : ℤ
  tectonicSetting : String
  K : ℚ
  c : ℚ
  p : ℚ
  a : ℚ
  b : ℚ
  rSquared : ℚ
  quality : String
  trainingSequences : ℕ
  trainingAftershocks : ℕ
deriving DecidableEq, Repr

/-- Modelled from the spec: the in-memory registry built at startup, with
the mandatory global fallback (its absence is fatal, so it is a plain
field, not an `Option`). -/
structure ModelRegistry where
  regional : List RegionalModel
  globalFallback : RegionalModel

/-- Modelled from the spec: provenance of the selected model. -/
inductive ModelSource where
  | regional
  | tectonicFallback
  | globalFallback
deriving DecidableEq, Repr

/-- Modelled from the spec: selector output, a model plus provenance. -/
structure SelectedModel where
  model : RegionalModel
  source : ModelSource
deriving DecidableEq, Repr

/-- Modelled from the spec: the minimum-quality gate, training_sequences ≥
3 AND training_aftershocks ≥ 30. -/
def qualityGate (r : RegionalModel) : Bool :=
  3 ≤ r.trainingSequences && 30 ≤ r.trainingAftershocks

/-- Modelled from the spec: the grid-cell id of a location, flooring
latitude and longitude to the nearest lower multiple of 5. -/
def cellOf (lat lon : ℚ) : ℤ × ℤ :=
  (5 * ⌊lat / 5⌋, 5 * ⌊lon / 5⌋)

/-- Modelled from the spec: exact-cell lookup in the registry (§4.1). -/
def lookupByCell (reg : ModelRegistry) (cell : ℤ × ℤ) : Option RegionalModel :=
  reg.regional.find? fun r => r.cellLat == cell.1 && r.cellLon == cell.2

/-- Modelled from the spec: the bounded cell-distance search radius of the
tectonic fallback (§4.1), in degrees of the 5°-cell grid. -/
def searchRadiusDeg : ℤ := 30

/-- Cell-to-cell distance used by the bounded nearest-model search. -/
def cellDist (x y : ℤ × ℤ) : ℤ :=
  |x.1 - y.1| + |x.2 - y.2|

/-- Modelled from the spec: nearest regional model sharing the tectonic
tag within the bounded search radius and passing the quality gate. -/
def lookupByTectonic (reg : ModelRegistry) (setting : String) (near : ℤ × ℤ) :
    Option RegionalModel :=
  (reg.regional.filter fun r =>
      r.tectonicSetting == setting && qualityGate r &&
        decide (cellDist (r.cellLat, r.cellLon) near ≤ searchRadiusDeg)).argmin
    fun r => cellDist (r.cellLat, r.cellLon) near

/-- Modelled from the spec: step 1 of the fallback chain, the exact-cell
regional model accepted only if it passes the quality gate. -/
def exactCellStep (reg : ModelRegistry) (cell : ℤ × ℤ) : Option SelectedModel :=
  match lookupByCell reg cell with
  | some r => if qualityGate r then some ⟨r, ModelSource.regional⟩ else none
  | none => none

/-- Modelled from the spec: the tectonic setting known at step 2, either
the explicit override or the tag inferred from the cell's own model. -/
def knownTectonic (reg : ModelRegistry) (cell : ℤ × ℤ)
    (override : Option String) : Option String :=
  match override with
  | some s => some s
  | none => (lookupByCell reg cell).map fun r => r.tectonicSetting

/-- Modelled from the spec: step 2 of the fallback chain, the nearest
same-tectonic model passing the gate, when a tectonic setting is known. -/
def tectonicStep (reg : ModelRegistry) (cell : ℤ × ℤ)
    (override : Option String) : Option SelectedModel :=
  match knownTectonic reg cell override with
  | some s => (lookupByTectonic reg s cell).map fun r => ⟨r, ModelSource.tectonicFallback⟩
  | none => none

/-- Modelled from the spec (§9): the ordered list of selection strategies,
evaluated in priority order, each returning present/absent; the last is
the global fallback, which always succeeds. -/
def selectionStrategies (reg : ModelRegistry) (lat lon : ℚ)
    (override : Option String) : List (Option SelectedModel) :=
  [exactCellStep reg (cellOf lat lon),
   tectonicStep reg (cellOf lat lon) override,
   some ⟨reg.globalFallback, ModelSource.globalFallback⟩]

/-- First present result of the strategy chain. -/
def firstPresent : List (Option SelectedModel) → Option SelectedModel
  | [] => none
  | some s :: _ => some s
  | none :: rest => firstPresent rest

/-- Modelled from the spec: the ModelSelector's resolution, first success
of the ordered fallback chain. -/
def selectModel (reg : ModelRegistry) (lat lon : ℚ)
    (override : Option String) : Option SelectedModel :=
  firstPresent (selectionStrategies reg lat lon override)

/-- C1: for every mainshock location with latitude in [-90,90] and
longitude in [-180,180), model selection is total: the three-step fallback
chain always returns some model and never returns "no model". -/
theorem selectModel_total (reg : ModelRegistry) (lat lon : ℚ)
    (override : Option String)
    (hlat : -90 ≤ lat ∧ lat ≤ 90) (hlon : -180 ≤ lon ∧ lon < 180) :
    ∃ s : SelectedModel, selectModel reg lat lon override = some s := by
  unfold selectModel selectionStrategies
  cases h₁ : exactCellStep reg (cellOf lat lon) with
  | some s => exact ⟨s, by simp [firstPresent]⟩
  | none =>
    cases h₂ : tectonicStep reg (cellOf lat lon) override with
    | some s => exact ⟨s, by simp [firstPresent]⟩
    | none =>
      exact ⟨⟨reg.globalFallback, ModelSource.globalFallback⟩, by simp [firstPresent]⟩

/-- Witness for C1: an empty regional list over a registry holding only
the global fallback still selects a model at the origin. -/
theorem selectModel_total_witness :
    ∃ s : SelectedModel,
      selectModel
        ⟨[], ⟨"global_fallback", 0, 0, "mixed", 1, 1/10, 11/10, 4, 1, 9/10,
          "unknown", 0, 0⟩⟩ 0 0 none = some s :=
  selectModel_total _ 0 0 none ⟨by norm_num, by norm_num⟩ ⟨by norm_num, by norm_num⟩

/-! ## Frontend formatters (`frontend/utils/formatters.js`) -/

/-- The risk-level color table of `getRiskLevelColor`. -/
def riskLevelColors : List (String × String) :=
  [("CRITICAL", "#dc2626"), ("HIGH", "#f59e0b"),
   ("ELEVATED", "#fbbf24"), ("MODERATE", "#10b981")]

/-- Color for a risk level, with the gray default for unknown levels. -/
def getRiskLevelColor (level : String) : String :=
  match riskLevelColors.lookup level with
  | some c => c
  | none => "#4b5563"

/-- The risk colors of the Tailwind theme (`tailwind.config.js`). -/
def tailwindRiskColors : List (String × String) :=
  [("risk-critical", "#dc2626"), ("risk-high", "#f59e0b"),
   ("risk-elevated", "#fbbf24"), ("risk-moderate", "#10b981")]

/-- C4: each of the four risk levels maps to exactly the color of the
spec's §4.4 table, both through `getRiskLevelColor` and in the Tailwind
theme palette. -/
theorem getRiskLevelColor_matches_table :
    getRiskLevelColor "CRITICAL" = "#dc2626" ∧
      getRiskLevelColor "HIGH" = "#f59e0b" ∧
      getRiskLevelColor "ELEVATED" = "#fbbf24" ∧
      getRiskLevelColor "MODERATE" = "#10b981" ∧
      tailwindRiskColors.lookup "risk-critical" = some "#dc2626" ∧
      tailwindRiskColors.lookup "risk-high" = some "#f59e0b" ∧
      tailwindRiskColors.lookup "risk-elevated" = some "#fbbf24" ∧
      tailwindRiskColors.lookup "risk-moderate" = some "#10b981" :=
  ⟨rfl, rfl, rfl, rfl, rfl, rfl, rfl, rfl⟩

/-- One-decimal rendering of an integer number of tenths, `n/10 . n%10`. -/
def showTenths (n : ℤ) : String :=
  toString (n / 10) ++ "." ++ toString (n % 10)

/-- JavaScript `x.toFixed(1)` modelled on exact rationals: round to the
nearest tenth (ties up) and render with one decimal. -/
def toFixed1 (x : ℚ) : String :=
  showTenths (round (10 * x))

/-- `formatProbability` from the source:
`(probability * 100).toFixed(1) + '%'`. -/
def formatProbability (probability : ℚ) : String :=
  toFixed1 (probability * 100) ++ "%"

/-- C5: for every probability value p, `formatProbability p` renders
exactly p×100 rounded to one decimal place (the displayed tenths are
within 1/20 of p×100) followed by the character '%'. -/
theorem formatProbability_renders_percentage (p : ℚ) (hp : 0 ≤ p) (hp1 : p ≤ 1) :
    formatProbability p = showTenths (round (1000 * p)) ++ "%" ∧
      |((round (1000 * p) : ℤ) : ℚ) / 10 - p * 100| ≤ 1 / 20 := by
  constructor
  · unfold formatProbability toFixed1
    rw [show (10 : ℚ) * (p * 100) = 1000 * p by ring]
  · have h : |1000 * p - ((round (1000 * p) : ℤ) : ℚ)| ≤ 1 / 2 :=
      abs_sub_round (1000 * p)
    have heq : ((round (1000 * p) : ℤ) : ℚ) / 10 - p * 100 =
        (((round (1000 * p) : ℤ) : ℚ) - 1000 * p) / 10 := by ring
    rw [heq, abs_div, abs_of_pos (by norm_num : (0 : ℚ) < 10), abs_sub_comm]
    linarith

/-- Witness for C5 at p = 1/4: the display is "25.0%" and the displayed
value is within a half-tenth of 25. -/
theorem formatProbability_renders_percentage_witness :
    formatProbability (1/4) = showTenths (round (1000 * (1/4 : ℚ))) ++ "%" ∧
      |((round (1000 * (1/4 : ℚ)) : ℤ) : ℚ) / 10 - (1/4 : ℚ) * 100| ≤ 1 / 20 :=
  formatProbability_renders_percentage (1/4) (by norm_num) (by norm_num)

/-! ## Frontend API client (`frontend/utils/api.js`) -/

/-- A JSON value as it appears in the POSTed request body. -/
inductive JsonVal where
  | num (q : ℚ)
  | str (s : String)
  | null
deriving DecidableEq, Repr

/-- An HTTP POST as issued by the axios client: a path and a JSON body
modelled as an ordered key-value list. -/
structure PostRequest where
  path : String
  body : List (String × JsonVal)
deriving DecidableEq, Repr

/-- `predictAftershocks` from the source: POST `/api/predict` with keys
magnitude, latitude, longitude and tectonic_setting, the last defaulting
to null when the caller omits it. -/
def predictAftershocks (magnitude latitude longitude : ℚ)
    (tectonicSetting : Option String := none) : PostRequest :=
  ⟨"/api/predict",
   [("magnitude", JsonVal.num magnitude),
    ("latitude", JsonVal.num latitude),
    ("longitude", JsonVal.num longitude),
    ("tectonic_setting",
      match tectonicSetting with
      | some s => JsonVal.str s
      | none => JsonVal.null)]⟩

/-- The earthquake fields that `DetailPanel.fetchPredictions` reads. -/
structure EarthquakeDescriptor where
  magnitude : ℚ
  latitude : ℚ
  longitude : ℚ
deriving DecidableEq, Repr

/-- The request issued by `DetailPanel.fetchPredictions`, which passes
only magnitude, latitude and longitude. -/
def fetchPredictionsRequest (eq : EarthquakeDescriptor) : PostRequest :=
  predictAftershocks eq.magnitude eq.latitude eq.longitude

/-- C6: every `predictAftershocks` body holds exactly the four keys
magnitude, latitude, longitude and tectonic_setting bound to the
arguments, and the DetailPanel caller, which omits the tectonic setting,
sends tectonic_setting = null. -/
theorem predictAftershocks_body_shape (m la lo : ℚ) (t : Option String)
    (eq : EarthquakeDescriptor) :
    (predictAftershocks m la lo t).path = "/api/predict" ∧
      (predictAftershocks m la lo t).body.map Prod.fst =
        ["magnitude", "latitude", "longitude", "tectonic_setting"] ∧
      (predictAftershocks m la lo t).body.lookup "magnitude" =
        some (JsonVal.num m) ∧
      (predictAftershocks m la lo t).body.lookup "latitude" =
        some (JsonVal.num la) ∧
      (predictAftershocks m la lo t).body.lookup "longitude" =
        some (JsonVal.num lo) ∧
      (predictAftershocks m la lo t).body.lookup "tectonic_setting" =
        some (match t with
              | some s => JsonVal.str s
              | none => JsonVal.null) ∧
      fetchPredictionsRequest eq =
        predictAftershocks eq.magnitude eq.latitude eq.longitude none ∧
      (fetchPredictionsRequest eq).body.lookup "tectonic_setting" =
        some JsonVal.null := by
  cases t <;> exact ⟨rfl, rfl, rfl, rfl, rfl, rfl, rfl, rfl⟩

/-! ## Model explorer page (`frontend/pages/models.js`) -/

/-- One model summary of the coverage response, with the fields the
models page reads. -/
structure CoverageModel where
  regionSummaryId : String
  quality : String
  sequences : ℕ
  aftershocks : ℕ
  tectonicTag : String
deriving DecidableEq, Repr

/-- JavaScript `toLowerCase`, modelled as a per-character map (the
quality tiers are ASCII). -/
def jsToLower (s : String) : String := ⟨s.data.map Char.toLower⟩

/-- One step of the JS object update `stats[q] = (stats[q] || 0) + 1`:
bump an existing key, or append a fresh key at 1. -/
def bumpQuality (stats : List (String × ℕ)) (q : String) : List (String × ℕ) :=
  if stats.any fun kv => kv.1 == q then
    stats.map fun kv => if kv.1 == q then (kv.1, kv.2 + 1) else kv
  else
    stats ++ [(q, 1)]

/-- The stats object initialised with the four tiers at zero. -/
def initialQualityStats : List (String × ℕ) :=
  [("high", 0), ("medium", 0), ("low", 0), ("unknown", 0)]

/-- `getQualityStats` from the source: fold the coverage list, counting
each model under its lowercased quality tier. -/
def getQualityStats (coverage : List CoverageModel) : List (String × ℕ) :=
  coverage.foldl (fun s m => bumpQuality s (jsToLower m.quality)) initialQualityStats

theorem bumpQuality_four (a b c d : ℕ) (q : String)
    (hq : q = "high" ∨ q = "medium" ∨ q = "low" ∨ q = "unknown") :
    bumpQuality [("high", a), ("medium", b), ("low", c), ("unknown", d)] q =
      [("high", if q = "high" then a + 1 else a),
       ("medium", if q = "medium" then b + 1 else b),
       ("low", if q = "low" then c + 1 else c),
       ("unknown", if q = "unknown" then d + 1 else d)] := by
  rcases hq with h | h | h | h <;> subst h <;> simp +decide [bumpQuality]

theorem foldl_bumpQuality_four (qs : List String)
    (hqs : ∀ q ∈ qs, q = "high" ∨ q = "medium" ∨ q = "low" ∨ q = "unknown") :
    ∀ a b c d : ℕ,
      qs.foldl bumpQuality [("high", a), ("medium", b), ("low", c), ("unknown", d)] =
        [("high", a + qs.count "high"), ("medium", b + qs.count "medium"),
         ("low", c + qs.count "low"), ("unknown", d + qs.count "unknown")] := by
  induction qs with
  | nil => intro a b c d; simp
  | cons q rest ih =>
    intro a b c d
    have hq := hqs q (List.mem_cons_self _ _)
    have hrest : ∀ x ∈ rest, x = "high" ∨ x = "medium" ∨ x = "low" ∨ x = "unknown" :=
      fun x hx => hqs x (List.mem_cons_of_mem _ hx)
    rw [List.foldl_cons, bumpQuality_four a b c d q hq, ih hrest]
    rcases hq with h | h | h | h <;> subst h <;>
      simp +decide [List.count_cons] <;> omega

theorem count_four_eq_length (qs : List String)
    (hqs : ∀ q ∈ qs, q = "high" ∨ q = "medium" ∨ q = "low" ∨ q = "unknown") :
    qs.count "high" + qs.count "medium" + qs.count "low" + qs.count "unknown" =
      qs.length := by
  induction qs with
  | nil => simp
  | cons q rest ih =>
    have hq := hqs q (List.mem_cons_self _ _)
    have hrest : ∀ x ∈ rest, x = "high" ∨ x = "medium" ∨ x = "low" ∨ x = "unknown" :=
      fun x hx => hqs x (List.mem_cons_of_mem _ hx)
    have := ih hrest
    rcases hq with h | h | h | h <;> subst h <;>
      simp +decide [List.count_cons] <;> omega

/-- C7: when each model's lowercased quality tier is one of high, medium,
low, unknown, `getQualityStats` returns exactly the four tier counts,
each count being the number of models with that tier, and the counts sum
to the coverage length. -/
theorem getQualityStats_counts (coverage : List CoverageModel)
    (h : ∀ m ∈ coverage, jsToLower m.quality = "high" ∨ jsToLower m.quality = "medium" ∨
      jsToLower m.quality = "low" ∨ jsToLower m.quality = "unknown") :
    getQualityStats coverage =
        [("high", (coverage.map fun m => jsToLower m.quality).count "high"),
         ("medium", (coverage.map fun m => jsToLower m.quality).count "medium"),
         ("low", (coverage.map fun m => jsToLower m.quality).count "low"),
         ("unknown", (coverage.map fun m => jsToLower m.quality).count "unknown")] ∧
      (coverage.map fun m => jsToLower m.quality).count "high" +
          (coverage.map fun m => jsToLower m.quality).count "medium" +
          (coverage.map fun m => jsToLower m.quality).count "low" +
          (coverage.map fun m => jsToLower m.quality).count "unknown" =
        coverage.length := by
  have hmem : ∀ q ∈ coverage.map fun m => jsToLower m.quality,
      q = "high" ∨ q = "medium" ∨ q = "low" ∨ q = "unknown" := by
    intro q hqmem
    obtain ⟨m, hm, rfl⟩ := List.mem_map.mp hqmem
    exact h m hm
  constructor
  · have hfold : getQualityStats coverage =
        (coverage.map fun m => jsToLower m.quality).foldl bumpQuality
          initialQualityStats := by
      rw [List.foldl_map]
      rfl
    rw [hfold, initialQualityStats,
      foldl_bumpQuality_four _ hmem 0 0 0 0]
    simp
  · rw [← List.length_map coverage fun m => jsToLower m.quality]
    exact count_four_eq_length _ hmem

/-- Witness for C7 on a three-model coverage list spanning two tiers. -/
theorem getQualityStats_counts_witness :
    getQualityStats
        [⟨"r1", "High", 4, 40, "subduction"⟩, ⟨"r2", "low", 3, 31, "transform"⟩,
         ⟨"r3", "HIGH", 5, 52, "subduction"⟩] =
          [("high", 2), ("medium", 0), ("low", 1), ("unknown", 0)] ∧
      (2 : ℕ) + 0 + 1 + 0 = 3 := by
  have h := getQualityStats_counts
    [⟨"r1", "High", 4, 40, "subduction"⟩, ⟨"r2", "low", 3, 31, "transform"⟩,
     ⟨"r3", "HIGH", 5, 52, "subduction"⟩] (by decide)
  exact ⟨by rw [h.1]; decide, by norm_num⟩

/-! ## Place truncation (`frontend/utils/formatters.js`)

JavaScript strings are modelled at the character level as `List Char`
(`place.length`, `place.substring(0, n)` and concatenation act on
code units). -/

/-- The fixed fallback text for a falsy place. -/
def unknownLocation : List Char := "Unknown location".toList

/-- `truncatePlace` from the source: a falsy place (null, undefined or
the empty string) gives the fallback; a short place is returned
unchanged; a long place is cut to `maxLength` characters plus "...". -/
def truncatePlace (place : Option (List Char)) (maxLength : ℕ := 50) : List Char :=
  match place with
  | none => unknownLocation
  | some s =>
    if s.length = 0 then unknownLocation
    else if s.length ≤ maxLength then s
    else s.take maxLength ++ "...".toList

/-- C8: `truncatePlace` is total: a null/undefined/empty place gives
'Unknown location'; a non-empty place of length at most maxLength is
returned unchanged; otherwise the result is the first maxLength
characters followed by "..." and has length maxLength + 3. -/
theorem truncatePlace_cases (s : List Char) (maxLength : ℕ) :
    truncatePlace none maxLength = unknownLocation ∧
      truncatePlace (some []) maxLength = unknownLocation ∧
      (s ≠ [] → s.length ≤ maxLength → truncatePlace (some s) maxLength = s) ∧
      (s ≠ [] → maxLength < s.length →
        truncatePlace (some s) maxLength = s.take maxLength ++ "...".toList ∧
          (truncatePlace (some s) maxLength).length = maxLength + 3) := by
  refine ⟨rfl, rfl, ?_, ?_⟩
  · intro hne hle
    simp [truncatePlace, List.length_eq_zero, hne, hle]
  · intro hne hgt
    have h1 : truncatePlace (some s) maxLength = s.take maxLength ++ "...".toList := by
      simp [truncatePlace, List.length_eq_zero, hne, not_le.mpr hgt]
    refine ⟨h1, ?_⟩
    rw [h1, List.length_append, List.length_take, min_eq_left hgt.le]
    rfl

/-- Witness for C8: "hello" truncated at 3 becomes "hel..." of length 6;
the falsy cases give the fixed fallback. -/
theorem truncatePlace_cases_witness :
    truncatePlace (some "hello".toList) 3 = "hel".toList ++ "...".toList ∧
      (truncatePlace (some "hello".toList) 3).length = 3 + 3 := by
  have h := (truncatePlace_cases "hello".toList 3).2.2.2 (by decide) (by decide)
  exact ⟨by rw [h.1]; decide, h.2⟩

/-! ## Hazard zones (`frontend/components/Map/EarthquakeMap.js`) -/

/-- The three hazard-zone radii returned by `calculateHazardZones`. -/
structure HazardZones where
  critical : ℝ
  high : ℝ
  moderate : ℝ

/-- `calculateHazardZones` from the source: base radius
`10^(magnitude−2) * 1000` meters, scaled by 0.3, 0.6 and 1.0. -/
noncomputable def calculateHazardZones (magnitude : ℝ) : HazardZones :=
  let baseRadius := (10 : ℝ) ^ (magnitude - 2) * 1000
  ⟨baseRadius * 0.3, baseRadius * 0.6, baseRadius * 1.0⟩

/-- C9: the three radii are strictly positive and ordered
critical < high < moderate, and each radius is strictly increasing in the
magnitude. -/
theorem calculateHazardZones_ordered_and_increasing (m₁ m₂ : ℝ) (h : m₁ < m₂) :
    (0 < (calculateHazardZones m₁).critical ∧
        (calculateHazardZones m₁).critical < (calculateHazardZones m₁).high ∧
        (calculateHazardZones m₁).high < (calculateHazardZones m₁).moderate) ∧
      (calculateHazardZones m₁).critical < (calculateHazardZones m₂).critical ∧
      (calculateHazardZones m₁).high < (calculateHazardZones m₂).high ∧
      (calculateHazardZones m₁).moderate < (calculateHazardZones m₂).moderate := by
  have hb₁ : (0 : ℝ) < (10 : ℝ) ^ (m₁ - 2) := Real.rpow_pos_of_pos (by norm_num) _
  have hb₂ : (0 : ℝ) < (10 : ℝ) ^ (m₂ - 2) := Real.rpow_pos_of_pos (by norm_num) _
  have hlt : (10 : ℝ) ^ (m₁ - 2) < (10 : ℝ) ^ (m₂ - 2) :=
    Real.rpow_lt_rpow_of_exponent_lt (by norm_num) (by linarith)
  dsimp only [calculateHazardZones]
  refine ⟨⟨by positivity, by nlinarith, by nlinarith⟩, by nlinarith, by nlinarith,
    by nlinarith⟩

/-- Witness for C9 at magnitudes 5 and 6. -/
theorem calculateHazardZones_ordered_and_increasing_witness :
    (0 < (calculateHazardZones 5).critical ∧
        (calculateHazardZones 5).critical < (calculateHazardZones 5).high ∧
        (calculateHazardZones 5).high < (calculateHazardZones 5).moderate) ∧
      (calculateHazardZones 5).critical < (calculateHazardZones 6).critical ∧
      (calculateHazardZones 5).high < (calculateHazardZones 6).high ∧
      (calculateHazardZones 5).moderate < (calculateHazardZones 6).moderate :=
  calculateHazardZones_ordered_and_increasing 5 6 (by norm_num)

/-! ## Probability chart (`frontend/components/Forecast/ProbabilityChart.js`)

The chart's entries come from the documented `magnitude_probabilities`
response shape, whose values carry only `probability` and `percentage`;
the comparator reads an absent `magnitude` field, which is modelled as an
`Option` that is `none`. -/

/-- One value of the magnitude-probabilities map as the chart receives
it; `magnitude` is absent (`none`) in the documented response shape. -/
structure ProbEntry where
  probability : ℚ
  percentage : ℚ
  magnitude : Option ℚ
deriving DecidableEq, Repr

/-- A JavaScript number, which may be NaN. -/
inductive JsNumber where
  | nan
  | val (q : ℚ)
deriving DecidableEq, Repr

/-- JavaScript subtraction where reading an absent field gives undefined:
any undefined operand makes the result NaN. -/
def jsSub : Option ℚ → Option ℚ → JsNumber
  | some a, some b => JsNumber.val (a - b)
  | some _, none => JsNumber.nan
  | none, _ => JsNumber.nan

/-- The comparator from the source:
`(a, b) => b[1].magnitude - a[1].magnitude`. -/
def probComparator (a b : String × ProbEntry) : JsNumber :=
  jsSub b.2.magnitude a.2.magnitude

/-- ECMAScript SortCompare: a NaN comparator result is treated as +0. -/
def sortKeyOfJsNumber : JsNumber → ℚ
  | JsNumber.nan => 0
  | JsNumber.val q => q

/-- The before-or-equal test the stable sort uses: the comparator result,
NaN coerced to 0, is at most zero. -/
def probLe (a b : String × ProbEntry) : Bool :=
  decide (sortKeyOfJsNumber (probComparator a b) ≤ 0)

/-- Stable insertion: `x` goes in front of the first element it does not
have to follow, keeping the relative order of ties. -/
def stableInsert (le : α → α → Bool) (x : α) : List α → List α
  | [] => [x]
  | y :: ys => if le x y then x :: y :: ys else y :: stableInsert le x ys

/-- Stable sort, as ECMAScript requires of `Array.prototype.sort`. -/
def stableSort (le : α → α → Bool) : List α → List α
  | [] => []
  | x :: xs => stableInsert le x (stableSort le xs)

/-- `sortedProbs` from the source: `Object.entries(probabilities)` in
enumeration order, sorted by the magnitude comparator. -/
def sortedProbs (probabilities : List (String × ProbEntry)) :
    List (String × ProbEntry) :=
  stableSort probLe probabilities

theorem stableSort_id_of_no_magnitude (l : List (String × ProbEntry)) :
    (∀ e ∈ l, e.2.magnitude = none) → sortedProbs l = l := by
  induction l with
  | nil => intro _; rfl
  | cons e rest ih =>
    intro h
    have hrest : ∀ x ∈ rest, x.2.magnitude = none :=
      fun x hx => h x (List.mem_cons_of_mem _ hx)
    have hsorted : sortedProbs rest = rest := ih hrest
    unfold sortedProbs at hsorted ⊢
    rw [stableSort, hsorted]
    cases rest with
    | nil => rfl
    | cons f fs =>
      have hle : probLe e f = true := by
        unfold probLe probComparator
        rw [h f (by simp), h e (by simp)]
        rfl
      rw [stableInsert, if_pos hle]

/-- C10: on entries carrying only probability and percentage (no numeric
magnitude field), the comparator `b.magnitude − a.magnitude` is NaN on
every pair, so the sort does not reorder anything and the chart's bar
order equals the enumeration order of the input map. -/
theorem probabilityChart_preserves_order (entries : List (String × ProbEntry))
    (h : ∀ e ∈ entries, e.2.magnitude = none) :
    (∀ a ∈ entries, ∀ b ∈ entries, probComparator a b = JsNumber.nan) ∧
      sortedProbs entries = entries :=
  ⟨fun a ha b hb => by unfold probComparator; rw [h b hb, h a ha]; rfl,
   stableSort_id_of_no_magnitude entries h⟩

/-- Witness for C10 on two magnitude-probability entries of the
documented shape. -/
theorem probabilityChart_preserves_order_witness :
    (∀ a ∈ [("M4.5", (⟨1/2, 50, none⟩ : ProbEntry)), ("M5.0", ⟨1/4, 25, none⟩)],
        ∀ b ∈ [("M4.5", (⟨1/2, 50, none⟩ : ProbEntry)), ("M5.0", ⟨1/4, 25, none⟩)],
          probComparator a b = JsNumber.nan) ∧
      sortedProbs [("M4.5", (⟨1/2, 50, none⟩ : ProbEntry)), ("M5.0", ⟨1/4, 25, none⟩)] =
        [("M4.5", (⟨1/2, 50, none⟩ : ProbEntry)), ("M5.0", ⟨1/4, 25, none⟩)] :=
  probabilityChart_preserves_order
    [("M4.5", (⟨1/2, 50, none⟩ : ProbEntry)), ("M5.0", ⟨1/4, 25, none⟩)]
    (by decide)

end Aftershock
